import Mathlib

/-!
Shallow embedding of `src/auto-stop-idle/autostop.py`.

The script parses command line options with `getopt`, queries the Jupyter
sessions API, evaluates idleness per session, falls back to an
instance-level check against the SageMaker API when no session exists,
and finally stops the notebook instance when the idle flag survived.

Modelling conventions:
- `datetime` values are instants at microsecond resolution (`Int`);
  `timedelta.total_seconds()` is exact rational division by 1000000.
  The `strptime` / `strftime` steps with format `%Y-%m-%dT%H:%M:%S.%fz`
  are modelled as the identity on the underlying instant: the claims
  quantify over timestamps parseable in that format.
- Python exceptions are explicit: computations that can raise return
  `Except PyError`.
- Type annotations are erased; they do not affect the modelled control
  flow.
- Network and file reads (sessions API, resource metadata file,
  SageMaker describe and list_tags calls) are supplied by an `Env`;
  the spec places their failure modes out of scope.
-/

namespace Autostop

/-- Python exceptions the modelled control flow can raise. -/
inductive PyError
  | typeError
  | valueError
  deriving DecidableEq, Repr

/-- Error raised inside the getopt module, and by the explicit
`raise getopt.GetoptError("No input parameters!")` of the script. -/
inductive GetoptError
  | err
  deriving DecidableEq, Repr

/-- Digit string to natural number; `none` when the list is empty or a
non-digit character occurs. -/
def pyDigits (cs : List Char) : Option Nat :=
  if cs.isEmpty then none
  else
    cs.foldl
      (fun acc c =>
        match acc with
        | none => none
        | some n => if c.isDigit then some (n * 10 + (c.toNat - 48)) else none)
      (some 0)

/-- Python `int(str)` on the decimal forms the script can meet: an
optional sign followed by digits. -/
def pyInt (s : String) : Option Int :=
  match s.toList with
  | '-' :: rest => (pyDigits rest).map (fun n => -(n : Int))
  | '+' :: rest => (pyDigits rest).map (fun n => (n : Int))
  | cs => (pyDigits cs).map (fun n => (n : Int))

/-- Python str.startswith on strings, stated by structural recursion on
the character lists so that concrete instances reduce. -/
def strStartsWith (s pre : String) : Bool := pre.toList.isPrefixOf s.toList

/-- Python str.endswith on strings, stated by structural recursion on
the character lists so that concrete instances reduce. -/
def strEndsWith (s suf : String) : Bool := suf.toList.isSuffixOf s.toList

/-- The short option string the script passes to getopt: "ht:p:c". -/
def shortopts : List Char := ['h', 't', ':', 'p', ':', 'c']

/-- The long option list the script passes to getopt. -/
def longopts : List String := ["help", "time=", "port=", "ignore-connections"]

/-- CPython `getopt.short_has_arg`: find the first occurrence of the
option character in the short option string and report whether a colon
follows; an unknown character is an error (`none`). -/
def short_has_arg (opt : Char) : List Char → Option Bool
  | [] => none
  | c :: rest =>
    if opt = c ∧ c ≠ ':' then some (rest.head? == some ':')
    else short_has_arg opt rest

/-- CPython `getopt.do_shorts` on one option cluster. `nextArg` is the
following command line word; the returned flag says whether that word
was consumed as an option argument. -/
def do_shorts : List (String × String) → List Char → Option String →
    Except GetoptError (List (String × String) × Bool)
  | acc, [], _ => Except.ok (acc, false)
  | acc, opt :: rest, nextArg =>
    match short_has_arg opt shortopts with
    | none => Except.error GetoptError.err
    | some true =>
      if rest.isEmpty then
        match nextArg with
        | none => Except.error GetoptError.err
        | some a => Except.ok (acc ++ [(String.mk ['-', opt], a)], true)
      else Except.ok (acc ++ [(String.mk ['-', opt], String.mk rest)], false)
    | some false => do_shorts (acc ++ [(String.mk ['-', opt], "")]) rest nextArg

/-- Split a long option word at its first equals sign. -/
def splitAtEq : List Char → List Char × Option (List Char)
  | [] => ([], none)
  | c :: rest =>
    if c = '=' then ([], some rest)
    else
      let p := splitAtEq rest
      (c :: p.1, p.2)

/-- CPython `getopt.long_has_args`: unique prefix matching of a long
option name against the declared long options. -/
def long_has_args (opt : String) : Option (Bool × String) :=
  let possibilities := longopts.filter (fun o => strStartsWith o opt)
  if possibilities.isEmpty then none
  else if opt ∈ possibilities then some (false, opt)
  else if (opt ++ "=") ∈ possibilities then some (true, opt)
  else
    match possibilities with
    | [u] =>
      if strEndsWith u "=" then some (true, String.mk u.toList.dropLast)
      else some (false, u)
    | _ => none

/-- CPython `getopt.do_longs` on one long option word. -/
def do_longs (acc : List (String × String)) (word : String)
    (nextArg : Option String) :
    Except GetoptError (List (String × String) × Bool) :=
  let p := splitAtEq word.toList
  match long_has_args (String.mk p.1) with
  | none => Except.error GetoptError.err
  | some (true, full) =>
    match p.2 with
    | none =>
      match nextArg with
      | none => Except.error GetoptError.err
      | some a => Except.ok (acc ++ [("--" ++ full, a)], true)
    | some v => Except.ok (acc ++ [("--" ++ full, String.mk v)], false)
  | some (false, full) =>
    match p.2 with
    | some _ => Except.error GetoptError.err
    | none => Except.ok (acc ++ [("--" ++ full, "")], false)

/-- CPython `getopt.getopt` main loop: process words until the first
non-option word, a lone "-", or the "--" terminator. The structural
fuel parameter starts at the word count; every iteration consumes at
least one word, so the zero-fuel case is unreachable from
`autostopGetopt`. -/
def getopt_go : Nat → List (String × String) → List String →
    Except GetoptError (List (String × String) × List String)
  | 0, acc, args => Except.ok (acc, args)
  | _ + 1, acc, [] => Except.ok (acc, [])
  | fuel + 1, acc, a :: rest =>
    if strStartsWith a "-" ∧ a ≠ "-" then
      if a = "--" then Except.ok (acc, rest)
      else if strStartsWith a "--" then
        match do_longs acc (a.drop 2) rest.head? with
        | Except.error e => Except.error e
        | Except.ok (acc2, true) => getopt_go fuel acc2 rest.tail
        | Except.ok (acc2, false) => getopt_go fuel acc2 rest
      else
        match do_shorts acc (a.drop 1).toList rest.head? with
        | Except.error e => Except.error e
        | Except.ok (acc2, true) => getopt_go fuel acc2 rest.tail
        | Except.ok (acc2, false) => getopt_go fuel acc2 rest
    else Except.ok (acc, a :: rest)

/-- `getopt.getopt(sys.argv[1:], "ht:p:c", [...])` as the script invokes
it. -/
def autostopGetopt (args : List String) :
    Except GetoptError (List (String × String) × List String) :=
  getopt_go args.length [] args

/-- The configuration the option loop builds up, with the initial values
of the script globals. -/
structure Config where
  idle_timeout : Option Int
  port : String
  ignore_connections : Bool
  deriving DecidableEq, Repr

/-- Which fixed text the script prints before exiting. -/
inductive ExitMessage
  | usageInfo
  | helpInfo
  deriving DecidableEq, Repr

/-- Outcome of the option-processing prelude of the script. -/
inductive CLIResult
  | exit (code : Nat) (message : ExitMessage)
  | crash (e : PyError)
  | proceed (cfg : Config)
  deriving DecidableEq, Repr

/-- The for-loop over parsed options. Help exits immediately with code
0; a -t argument that is not an integer literal raises ValueError, which
the surrounding try does not catch. -/
def optLoop : Option Int → String → Bool → List (String × String) → CLIResult
  | idle_timeout, port, ignore_connections, [] =>
    CLIResult.proceed ⟨idle_timeout, port, ignore_connections⟩
  | idle_timeout, port, ignore_connections, (opt, arg) :: rest =>
    if opt = "-h" ∨ opt = "--help" then CLIResult.exit 0 ExitMessage.helpInfo
    else if opt = "-t" ∨ opt = "--time" then
      match pyInt arg with
      | some n => optLoop (some n) port ignore_connections rest
      | none => CLIResult.crash PyError.valueError
    else if opt = "-p" ∨ opt = "--port" then
      optLoop idle_timeout arg ignore_connections rest
    else if opt = "-c" ∨ opt = "--ignore-connections" then
      optLoop idle_timeout port true rest
    else optLoop idle_timeout port ignore_connections rest

/-- The try/except block of the script: getopt, the explicit error on an
empty option list, then the option loop. `GetoptError` is caught and
becomes the usage message with exit code 1. -/
def parseCLI (argv : List String) : CLIResult :=
  match autostopGetopt argv with
  | Except.error _ => CLIResult.exit 1 ExitMessage.usageInfo
  | Except.ok (opts, _) =>
    if opts.length = 0 then CLIResult.exit 1 ExitMessage.usageInfo
    else optLoop none "8443" false opts

/-- Instants at microsecond resolution: the value strptime returns,
viewed as microseconds on a timeline. -/
abbrev Datetime := Int

/-- `timedelta.total_seconds()`: exact seconds for a microsecond delta. -/
def totalSeconds (d : Int) : ℚ := (d : ℚ) / 1000000

/-- The two-parameter `is_idle` of the script, applied to the current
time, the already-parsed timestamp, and the timeout: true exactly when
`(datetime.now() - last_activity).total_seconds() > idle_timeout`.
Stated at microsecond resolution to keep the definition executable; the
equivalence with the `totalSeconds` comparison of the source is proved
below. -/
def is_idle (now last_activity : Datetime) (idle_timeout : Int) : Bool :=
  decide (now - last_activity > idle_timeout * 1000000)

/-- A call of `is_idle` with one argument. The definition of `is_idle`
has two required positional parameters; both call sites in the session
loop pass only the timestamp, so the call raises TypeError before the
body of `is_idle` runs. -/
def is_idle_missing_arg (_last_activity : Datetime) : Except PyError Bool :=
  Except.error PyError.typeError

/-- The kernel fields of a Jupyter session that the script reads. The
`last_activity` field stands for the parsed value of a timestamp string
in the format `%Y-%m-%dT%H:%M:%S.%fz`. -/
structure Kernel where
  execution_state : String
  connections : Nat
  last_activity : Datetime
  deriving DecidableEq, Repr

/-- A Jupyter session as returned by the local sessions API. -/
structure Session where
  kernel : Kernel
  deriving DecidableEq, Repr

/-- One iteration of the session for-loop: given the current idle flag,
produce the new idle flag, or the exception the iteration raises. -/
def checkSession (ignore_connections : Bool) (idle : Bool) (s : Session) :
    Except PyError Bool :=
  if s.kernel.execution_state = "idle" then
    if ¬ ignore_connections then
      if s.kernel.connections = 0 then
        match is_idle_missing_arg s.kernel.last_activity with
        | Except.error e => Except.error e
        | Except.ok b => Except.ok (if ¬ b then false else idle)
      else Except.ok false
    else
      match is_idle_missing_arg s.kernel.last_activity with
      | Except.error e => Except.error e
      | Except.ok b => Except.ok (if ¬ b then false else idle)
  else Except.ok false

/-- The session for-loop, threading the idle flag. -/
def sessionLoop (ignore_connections : Bool) : Bool → List Session → Except PyError Bool
  | idle, [] => Except.ok idle
  | idle, s :: rest =>
    match checkSession ignore_connections idle s with
    | Except.error e => Except.error e
    | Except.ok idle2 => sessionLoop ignore_connections idle2 rest

/-- `DEFAULT_TAG_KEY` of the script. -/
def DEFAULT_TAG_KEY : String := "AutoStopTimeOut"

/-- `default_idle_timeout` of the script. -/
def default_idle_timeout : Int := 3600

/-- A resource tag as returned by the SageMaker list_tags call. -/
structure Tag where
  key : String
  value : String
  deriving DecidableEq, Repr

/-- `get_notebook_timeout_tag` as defined in the script: the int value
of the first tag whose key is AutoStopTimeOut; None when no tag matches;
ValueError when the matching value is not an integer literal. -/
def get_notebook_timeout_tag (tags : List Tag) : Except PyError (Option Int) :=
  match tags.find? (fun t => t.key == DEFAULT_TAG_KEY) with
  | some t =>
    match pyInt t.value with
    | some n => Except.ok (some n)
    | none => Except.error PyError.valueError
  | none => Except.ok none

/-- The call site of `get_notebook_timeout_tag` in the fallback branch.
The definition requires a `tags` parameter, but the script calls the
function with no arguments, so the call raises TypeError and the fetched
tag list is never read. -/
def get_notebook_timeout_tag_missing_arg : Except PyError (Option Int) :=
  Except.error PyError.typeError

/-- Python truthiness of the `Optional[int]` idle_timeout variable: None
and 0 are falsy. -/
def truthy : Option Int → Bool
  | none => false
  | some n => n != 0

/-- The two `if not idle_timeout` steps of the fallback branch. The
`getD` default is unreachable: the second step always yields `some`. -/
def fallbackTimeout (idle_timeout : Option Int) : Except PyError Int :=
  match (if truthy idle_timeout then Except.ok idle_timeout
         else get_notebook_timeout_tag_missing_arg) with
  | Except.error e => Except.error e
  | Except.ok t1 =>
    Except.ok ((if truthy t1 then t1 else some default_idle_timeout).getD default_idle_timeout)

/-- The timeout precedence exactly as the spec words it: the CLI flag
when given, otherwise the AutoStopTimeOut tag, otherwise the 3600 second
default. Stated only for comparison with `fallbackTimeout`. -/
def specTimeoutPrecedence (cli : Option Int) (tags : List Tag) : Except PyError Int :=
  match cli with
  | some t => Except.ok t
  | none =>
    match get_notebook_timeout_tag tags with
    | Except.error e => Except.error e
    | Except.ok (some t) => Except.ok t
    | Except.ok none => Except.ok default_idle_timeout

/-- The no-session fallback: choose the timeout, then run `is_idle` on
the LastModifiedTime of the instance. The strftime and strptime pair
round-trips the instant at microsecond resolution. -/
def fallbackCheck (idle_timeout : Option Int) (now uptime : Datetime) (idle : Bool) :
    Except PyError Bool :=
  match fallbackTimeout idle_timeout with
  | Except.error e => Except.error e
  | Except.ok t => Except.ok (if ¬ is_idle now uptime t then false else idle)

/-- `NotebookResource` read from the metadata file. -/
structure NotebookResource where
  arn : String
  name : String
  deriving DecidableEq, Repr

/-- The data the external world supplies to one invocation. The
`cloudTags` field is fetched by the fallback branch but, because of the
argument-less `get_notebook_timeout_tag()` call, never read. -/
structure Env where
  resource : NotebookResource
  sessions : List Session
  now : Datetime
  lastModifiedTime : Datetime
  cloudTags : List Tag
  deriving DecidableEq, Repr

/-- Observable cloud side effects of the final decision. -/
inductive Action
  | stopInstance (name : String)
  deriving DecidableEq, Repr

/-- The idle flag after the session loop, or after the fallback branch
when the session list is empty. -/
def mainIdle (cfg : Config) (env : Env) : Except PyError Bool :=
  if env.sessions.length > 0 then
    sessionLoop cfg.ignore_connections true env.sessions
  else
    fallbackCheck cfg.idle_timeout env.now env.lastModifiedTime true

/-- The final `if idle` block: stop the instance exactly when the flag
survived. -/
def finalActions (resource : NotebookResource) (idle : Bool) : List Action :=
  if idle then [Action.stopInstance resource.name] else []

/-- The whole post-CLI run: the final idle flag and the emitted cloud
actions, or the uncaught exception. -/
def runProgram (cfg : Config) (env : Env) : Except PyError (Bool × List Action) :=
  match mainIdle cfg env with
  | Except.error e => Except.error e
  | Except.ok idle => Except.ok (idle, finalActions env.resource idle)

/-- A concrete environment with an empty session list: session API
returns zero sessions, instance last modified 10000 seconds before now,
and an AutoStopTimeOut tag of 7200 present on the resource. -/
def envNoSessions : Env :=
  { resource := { arn := "arn-example", name := "nb-example" }
    sessions := []
    now := 10000000000
    lastModifiedTime := 0
    cloudTags := [{ key := "AutoStopTimeOut", value := "7200" }] }

/-- A concrete session whose kernel is busy. -/
def busySession : Session :=
  { kernel := { execution_state := "busy", connections := 1, last_activity := 0 } }

/-! Helper lemmas shared by several results. -/

/-- Every loop iteration that returns normally returns the flag false:
the only non-raising paths are the two explicit `idle = False`
assignments. -/
theorem checkSession_ok_false {ign idle idle2 : Bool} {s : Session}
    (h : checkSession ign idle s = Except.ok idle2) : idle2 = false := by
  unfold checkSession at h
  split at h
  · split at h
    · split at h
      · simp [is_idle_missing_arg] at h
      · exact (Except.ok.inj h).symm
    · simp [is_idle_missing_arg] at h
  · exact (Except.ok.inj h).symm

/-- The idle flag is monotone along the session loop: a run that ends
with the flag true started with the flag true. -/
theorem sessionLoop_ok_mono {ign : Bool} {idle idle2 : Bool} {ss : List Session}
    (h : sessionLoop ign idle ss = Except.ok idle2) : idle2 = true → idle = true := by
  induction ss generalizing idle with
  | nil =>
    intro h2
    unfold sessionLoop at h
    rw [Except.ok.inj h]
    exact h2
  | cons s rest ih =>
    unfold sessionLoop at h
    split at h
    · exact absurd h (by simp)
    next idle1 heq =>
      intro h2
      have h1 : idle1 = false := checkSession_ok_false heq
      have h3 := ih h h2
      rw [h1] at h3
      exact absurd h3 (by simp)

/-- A session loop over a non-empty list that returns normally returns
the flag false. -/
theorem sessionLoop_cons_ok_false {ign idle idle2 : Bool} {s : Session}
    {rest : List Session}
    (h : sessionLoop ign idle (s :: rest) = Except.ok idle2) : idle2 = false := by
  unfold sessionLoop at h
  split at h
  · exact absurd h (by simp)
  next idle1 heq =>
    cases hi2 : idle2 with
    | false => rfl
    | true =>
      rw [hi2] at h
      have h1 : idle1 = false := checkSession_ok_false heq
      have h3 := sessionLoop_ok_mono h rfl
      rw [h1] at h3
      exact absurd h3 (by simp)

/-! Claim results. -/

/-- C1: `is_idle` returns true exactly when the elapsed seconds between
the current time and the parsed timestamp strictly exceed the integer
idle_timeout, and false otherwise; equivalently, at microsecond
resolution, exactly when the elapsed microseconds exceed
idle_timeout * 1000000. -/
theorem is_idle_iff_elapsed_exceeds_timeout (now last_activity : Datetime)
    (idle_timeout : Int) :
    (is_idle now last_activity idle_timeout = true ↔
      totalSeconds (now - last_activity) > (idle_timeout : ℚ)) ∧
    (is_idle now last_activity idle_timeout = false ↔
      totalSeconds (now - last_activity) ≤ (idle_timeout : ℚ)) ∧
    (is_idle now last_activity idle_timeout = true ↔
      now - last_activity > idle_timeout * 1000000) := by
  have h6 : (0 : ℚ) < 1000000 := by norm_num
  refine ⟨?_, ?_, by simp [is_idle]⟩
  · simp only [is_idle, decide_eq_true_eq, gt_iff_lt, totalSeconds]
    rw [lt_div_iff₀ h6]
    constructor
    · intro h
      exact_mod_cast h
    · intro h
      exact_mod_cast h
  · simp only [is_idle, decide_eq_false_iff_not, not_lt, totalSeconds, gt_iff_lt]
    rw [div_le_iff₀ h6]
    constructor
    · intro h
      exact_mod_cast h
    · intro h
      exact_mod_cast h

/-- C2: the code refutes the claim. For a session in execution state
idle with zero connections, the per-session call of `is_idle` passes
one argument to a two-parameter function, so the evaluation raises
TypeError instead of yielding a boolean. -/
theorem checkSession_idle_call_raises :
    checkSession false true
      { kernel := { execution_state := "idle", connections := 0, last_activity := 0 } } =
      Except.error PyError.typeError := rfl

/-- C3: the code refutes the claim. With no CLI timeout, the fallback
branch raises TypeError at the argument-less `get_notebook_timeout_tag()`
call, so the AutoStopTimeOut tag value (here 7200) and the 3600 default
are never reached; `specTimeoutPrecedence` states the precedence the
claim describes. -/
theorem fallback_timeout_tag_never_used :
    fallbackTimeout none = Except.error PyError.typeError ∧
    specTimeoutPrecedence none [{ key := "AutoStopTimeOut", value := "7200" }] =
      Except.ok 7200 :=
  ⟨rfl, rfl⟩

/-- C4: the code refutes the claim. With an empty session list and no
-t flag, the run raises TypeError before `is_idle` is applied to the
last-modified timestamp; with a non-zero CLI timeout the instance-level
check does run and stops the stale instance. -/
theorem fallback_requires_cli_timeout :
    runProgram { idle_timeout := none, port := "8443", ignore_connections := false }
        envNoSessions = Except.error PyError.typeError ∧
    runProgram { idle_timeout := some 5, port := "8443", ignore_connections := false }
        envNoSessions = Except.ok (true, [Action.stopInstance "nb-example"]) :=
  ⟨rfl, rfl⟩

/-- C5: with ignore_connections true, the evaluation of a session in
execution state idle never reads the connections field: two such
sessions differing only in connection count evaluate identically. -/
theorem ignore_connections_not_read (s s2 : Session) (idle : Bool)
    (h : s.kernel.execution_state = "idle")
    (h2 : s2.kernel.execution_state = "idle")
    (_hl : s.kernel.last_activity = s2.kernel.last_activity) :
    checkSession true idle s = checkSession true idle s2 := by
  simp [checkSession, h, h2, is_idle_missing_arg]

/-- Witness for C5 at connection counts 0 and 42. -/
theorem ignore_connections_not_read_witness :
    checkSession true true
      { kernel := { execution_state := "idle", connections := 0, last_activity := 0 } } =
    checkSession true true
      { kernel := { execution_state := "idle", connections := 42, last_activity := 0 } } :=
  ignore_connections_not_read _ _ _ rfl rfl rfl

/-- C6: on every run that completes, the stop action is emitted exactly
when the final idle flag is true. -/
theorem stop_iff_idle_flag (cfg : Config) (env : Env) (b : Bool) (acts : List Action)
    (h : runProgram cfg env = Except.ok (b, acts)) :
    Action.stopInstance env.resource.name ∈ acts ↔ b = true := by
  unfold runProgram at h
  split at h
  · exact absurd h (by simp)
  next idle0 heq =>
    have hp := Except.ok.inj h
    have hb : idle0 = b := congrArg Prod.fst hp
    have ha : finalActions env.resource idle0 = acts := congrArg Prod.snd hp
    subst hb
    subst ha
    cases idle0 with
    | false => simp [finalActions]
    | true => simp [finalActions]

/-- Witness for C6: a completed run with empty sessions and -t 5 stops
the instance. -/
theorem stop_iff_idle_flag_witness :
    Action.stopInstance "nb-example" ∈ [Action.stopInstance "nb-example"] ↔ true = true :=
  stop_iff_idle_flag { idle_timeout := some 5, port := "8443", ignore_connections := false }
    envNoSessions true [Action.stopInstance "nb-example"] rfl

/-- C9 counterexample: with -t 0, the fallback neither uses the tag
value 7200 nor the 3600 default; it raises TypeError. -/
theorem timeout_zero_crashes_instead_of_tag_or_default :
    fallbackTimeout (some 0) = Except.error PyError.typeError ∧
    fallbackTimeout (some 0) ≠ Except.ok 7200 ∧
    fallbackTimeout (some 0) ≠ Except.ok 3600 := by
  refine ⟨rfl, ?_, ?_⟩ <;> intro h <;> exact Except.noConfusion h

/-- C9 amended: a CLI timeout of 0 is treated as absent by the
falsiness test: the fallback behaves exactly as with no -t flag (it
enters the tag-override branch, which raises TypeError), while any
non-zero CLI timemout is used directly. -/
theorem timeout_zero_treated_as_absent (t : Int) (h : t ≠ 0) :
    fallbackTimeout (some 0) = fallbackTimeout none ∧
    fallbackTimeout (some t) = Except.ok t := by
  refine ⟨rfl, ?_⟩
  have ht : truthy (some t) = true := by simp [truthy, h]
  simp [fallbackTimeout, ht]

/-- Witness for C9 amended at t = 5. -/
theorem timeout_zero_treated_as_absent_witness :
    fallbackTimeout (some 0) = fallbackTimeout none ∧
    fallbackTimeout (some 5) = Except.ok 5 :=
  timeout_zero_treated_as_absent 5 (by decide)

/-- C10: the idle flag is monotonically non-increasing: each loop
iteration that completes only keeps or lowers the flag, a loop run that
ends true started true, and on a completed run that stops the instance
every session of the list passed all of its checks with the flag kept
true. -/
theorem idle_flag_monotone :
    (∀ (ign idle idle2 : Bool) (s : Session),
        checkSession ign idle s = Except.ok idle2 → idle2 = true → idle = true) ∧
    (∀ (ign idle idle2 : Bool) (ss : List Session),
        sessionLoop ign idle ss = Except.ok idle2 → idle2 = true → idle = true) ∧
    (∀ (cfg : Config) (env : Env) (b : Bool) (acts : List Action),
        runProgram cfg env = Except.ok (b, acts) →
        Action.stopInstance env.resource.name ∈ acts →
        ∀ s ∈ env.sessions,
          checkSession cfg.ignore_connections true s = Except.ok true) := by
  refine ⟨?_, ?_, ?_⟩
  · intro ign idle idle2 s h h2
    rw [checkSession_ok_false h] at h2
    exact absurd h2 (by simp)
  · intro ign idle idle2 ss h h2
    exact sessionLoop_ok_mono h h2
  · intro cfg env b acts hrun hstop s hs
    exfalso
    unfold runProgram at hrun
    split at hrun
    · exact absurd hrun (by simp)
    next idle0 heq =>
      have hp := Except.ok.inj hrun
      have ha : finalActions env.resource idle0 = acts := congrArg Prod.snd hp
      rw [← ha] at hstop
      cases hid : idle0 with
      | false =>
        rw [hid] at hstop
        simp [finalActions] at hstop
      | true =>
        rw [hid] at heq
        obtain ⟨s0, rest, hss⟩ : ∃ s0 rest, env.sessions = s0 :: rest := by
          cases hcase : env.sessions with
          | nil =>
            rw [hcase] at hs
            simp at hs
          | cons a l => exact ⟨a, l, rfl⟩
        unfold mainIdle at heq
        rw [hss] at heq
        rw [if_pos (by simp : ((s0 :: rest : List Session)).length > 0)] at heq
        have h3 := sessionLoop_cons_ok_false heq
        exact absurd h3 (by simp)

/-- Witness for C10: the loop over one busy session completes with the
flag lowered to false, and monotonicity applies to it. -/
theorem idle_flag_monotone_witness :
    sessionLoop false true [busySession] = Except.ok false ∧
    (false = true → true = true) :=
  ⟨rfl, idle_flag_monotone.2.1 false true false [busySession] rfl⟩

/-- If the parsed option list holds a help option and every -t option
before it carries an integer argument, the option loop prints help and
exits 0. The -t condition is needed: int() on a non-integer -t argument
raises ValueError before a later help option is reached. -/
theorem optLoop_reaches_help :
    ∀ (opts : List (String × String)) (t : Option Int) (p : String) (c : Bool),
      (∃ a, ("-h", a) ∈ opts ∨ ("--help", a) ∈ opts) →
      (∀ o a, (o, a) ∈ opts → (o = "-t" ∨ o = "--time") → (pyInt a).isSome = true) →
      optLoop t p c opts = CLIResult.exit 0 ExitMessage.helpInfo := by
  intro opts
  induction opts with
  | nil =>
    intro t p c hh _
    obtain ⟨a, ha | ha⟩ := hh <;> simp at ha
  | cons hd tl ih =>
    intro t p c hh ht
    obtain ⟨o, arg⟩ := hd
    by_cases hhelp : o = "-h" ∨ o = "--help"
    · unfold optLoop
      rw [if_pos hhelp]
    · have hh2 : ∃ a, ("-h", a) ∈ tl ∨ ("--help", a) ∈ tl := by
        obtain ⟨a, ha | ha⟩ := hh
        · rcases List.mem_cons.mp ha with heq | hmem
          · exact absurd (Or.inl (congrArg Prod.fst heq).symm) hhelp
          · exact ⟨a, Or.inl hmem⟩
        · rcases List.mem_cons.mp ha with heq | hmem
          · exact absurd (Or.inr (congrArg Prod.fst heq).symm) hhelp
          · exact ⟨a, Or.inr hmem⟩
      have ht2 : ∀ o2 a, (o2, a) ∈ tl → (o2 = "-t" ∨ o2 = "--time") →
          (pyInt a).isSome = true :=
        fun o2 a hm => ht o2 a (List.mem_cons_of_mem _ hm)
      unfold optLoop
      rw [if_neg hhelp]
      by_cases hT : o = "-t" ∨ o = "--time"
      · rw [if_pos hT]
        obtain ⟨n, hn⟩ :=
          Option.isSome_iff_exists.mp (ht o arg (List.mem_cons_self _ _) hT)
        rw [hn]
        exact ih _ _ _ hh2 ht2
      · rw [if_neg hT]
        by_cases hP : o = "-p" ∨ o = "--port"
        · rw [if_pos hP]
          exact ih _ _ _ hh2 ht2
        · rw [if_neg hP]
          by_cases hC : o = "-c" ∨ o = "--ignore-connections"
          · rw [if_pos hC]
            exact ih _ _ _ hh2 ht2
          · rw [if_neg hC]
            exact ih _ _ _ hh2 ht2

/-- C7 counterexample: the command line ["-x", "-h"] contains -h, yet
the program prints the usage text and exits 1, because getopt rejects
the unrecognized -x before the option loop runs. -/
theorem help_after_bad_option_not_honored :
    "-h" ∈ ["-x", "-h"] ∧
    parseCLI ["-x", "-h"] = CLIResult.exit 1 ExitMessage.usageInfo ∧
    parseCLI ["-x", "-h"] ≠ CLIResult.exit 0 ExitMessage.helpInfo := by
  refine ⟨by simp, rfl, by decide⟩

/-- C7 amended: a malformed command line (one getopt cannot parse)
prints the usage text and exits 1; a command line that getopt parses
successfully, whose parsed options include -h or --help, and whose -t
and --time options all carry integer arguments, prints the help text
and exits 0. -/
theorem cli_exit_codes (argv : List String) (opts : List (String × String))
    (rest : List String) :
    ((∃ e, autostopGetopt argv = Except.error e) →
      parseCLI argv = CLIResult.exit 1 ExitMessage.usageInfo) ∧
    (autostopGetopt argv = Except.ok (opts, rest) →
      (∃ a, ("-h", a) ∈ opts ∨ ("--help", a) ∈ opts) →
      (∀ o a, (o, a) ∈ opts → (o = "-t" ∨ o = "--time") → (pyInt a).isSome = true) →
      parseCLI argv = CLIResult.exit 0 ExitMessage.helpInfo) := by
  constructor
  · rintro ⟨e, he⟩
    simp [parseCLI, he]
  · intro hok hh ht
    have hne : ¬ opts.length = 0 := by
      intro h0
      rw [List.length_eq_zero] at h0
      subst h0
      obtain ⟨a, ha | ha⟩ := hh <;> simp at ha
    simp only [parseCLI, hok]
    rw [if_neg hne]
    exact optLoop_reaches_help opts none "8443" false hh ht

/-- Witness for C7 amended: ["-h"] prints help and exits 0; the
malformed ["-t"] (missing required argument) prints usage and exits 1. -/
theorem cli_exit_codes_witness :
    parseCLI ["-h"] = CLIResult.exit 0 ExitMessage.helpInfo ∧
    parseCLI ["-t"] = CLIResult.exit 1 ExitMessage.usageInfo :=
  ⟨(cli_exit_codes ["-h"] [("-h", "")] []).2 rfl ⟨"", Or.inl (by simp)⟩
      (by
        intro o a hm hT
        simp only [List.mem_singleton, Prod.mk.injEq] at hm
        rcases hm with ⟨rfl, rfl⟩
        rcases hT with h | h <;> exact absurd h (by decide)),
    (cli_exit_codes ["-t"] [] []).1 ⟨GetoptError.err, rfl⟩⟩

/-- C8: a well-formed command line that getopt parses to zero options
makes the script raise and catch its own GetoptError, so it prints the
usage text and exits 1 without running any idle check. -/
theorem zero_options_usage_exit (argv rest : List String)
    (h : autostopGetopt argv = Except.ok ([], rest)) :
    parseCLI argv = CLIResult.exit 1 ExitMessage.usageInfo := by
  simp [parseCLI, h]

/-- Witness for C8: the empty command line. -/
theorem zero_options_usage_exit_witness :
    parseCLI [] = CLIResult.exit 1 ExitMessage.usageInfo :=
  zero_options_usage_exit [] [] rfl

end Autostop
